import Mathlib

/-
Shallow embedding of the express-multitenancy mongoose-store package:
the multitenancy mongoose plugin (src/lib/mongoose-plugin.ts) and the
MongooseStore tenant registry (src/lib/index.ts, store part).

Modelling conventions:
- The process-wide mutable exemption set (a JS Set of strings) is passed
  explicitly as a `List String` with insertion that skips duplicates.
- The ambient tenant context (tenantContext.getStore) is an `Option String`
  argument: `none` models an absent store value.
- JavaScript truthiness on a string-or-undefined value is modelled by
  `truthy`: `none` and `some ""` are falsy, every other string is truthy.
  The hooks in the source guard on truthiness, for example
  `if (tenantId && !this.getQuery().tenantId)`.
- A query is its filter conditions (the tenantId key, plus the remaining
  key/value conditions the hooks never touch) and the projection flag set
  by `select('-tenantId')`.
- A document is its tenantId field plus its remaining fields.
-/

/-- JavaScript truthiness of an optional string value: an absent value and
the empty string are falsy; every non-empty string is truthy. -/
def truthy : Option String → Bool
  | none => false
  | some s => s != ""

/-- Insertion into the exemption set, modelling `Set.prototype.add`:
adds the name only when it is not already a member. -/
def addExempt (s : List String) (n : String) : List String :=
  if s.contains n then s else s ++ [n]

/-- Configuration options of the multitenancy plugin
(interface MultitenancyPluginOptions, src/lib/mongoose-plugin.ts lines 15-33).
`exemptModelsOpt` is the optional `exemptModels` array. -/
structure MultitenancyPluginOptions where
  exemptModelsOpt : Option (List String)
  hideTenantId : Bool
  debug : Bool
deriving DecidableEq, Repr

/-- State of the tenantId path of a schema: not declared, declared by the
user before the plugin ran, or added by the plugin as a String field whose
required validator is the per-instance exemption check
(src/lib/mongoose-plugin.ts lines 69-87). -/
inductive TenantIdPath
  | absent
  | userDeclared
  | pluginAdded
deriving DecidableEq, Repr

/-- The part of a mongoose schema the plugin inspects and mutates:
whether `schema.path('tenantId')` exists and where it came from. -/
structure SchemaModel where
  tenantIdPath : TenantIdPath
deriving DecidableEq, Repr

/-- The required validator the plugin attaches to the tenantId field
(src/lib/mongoose-plugin.ts lines 74-80): at validation time, return false
when the concrete model name of the instance is in the exemption set,
true otherwise. -/
def tenantIdRequired (exempt : List String) (modelName : String) : Bool :=
  if exempt.contains modelName then false else true

/-- The body of `multitenancyPlugin` apart from hook registration
(src/lib/mongoose-plugin.ts lines 55-87): add every name of
`options.exemptModels` to the shared exemption set, then add the tenantId
field when the schema does not already declare one. Returns the new
exemption set and the new schema. -/
def multitenancyPlugin (opts : MultitenancyPluginOptions) (exempt : List String)
    (schema : SchemaModel) : List String × SchemaModel :=
  let exempt1 :=
    match opts.exemptModelsOpt with
    | some names => names.foldl addExempt exempt
    | none => exempt
  let schema1 :=
    if schema.tenantIdPath = TenantIdPath.absent then
      { tenantIdPath := TenantIdPath.pluginAdded }
    else schema
  (exempt1, schema1)

/-- A mongoose query as the hooks see it: the tenantId key of
`getQuery()` (none when the filter has no tenantId key), the remaining
filter conditions, and whether `select('-tenantId')` has been applied. -/
structure Query where
  tenantIdCond : Option String
  otherConds : List (String × String)
  excludeTenantId : Bool
deriving DecidableEq, Repr

/-- The pre hook registered for /^find/ operations
(src/lib/mongoose-plugin.ts lines 91-113): skip exempt models; otherwise,
when the ambient tenant is truthy and the tenantId key of the filter is
falsy, merge the equality condition on tenantId via `where`; finally,
when `hideTenantId` is configured, exclude tenantId from the projection. -/
def preFindHook (opts : MultitenancyPluginOptions) (exempt : List String)
    (ambient : Option String) (modelName : String) (q : Query) : Query :=
  if exempt.contains modelName then q
  else
    let q1 :=
      if truthy ambient && !(truthy q.tenantIdCond) then
        { q with tenantIdCond := ambient }
      else q
    if opts.hideTenantId then { q1 with excludeTenantId := true } else q1

/-- The pre hook registered for /^count/ operations
(src/lib/mongoose-plugin.ts lines 117-130): same exemption check and same
filter condition as the find hook, and no projection change. -/
def preCountHook (exempt : List String) (ambient : Option String)
    (modelName : String) (q : Query) : Query :=
  if exempt.contains modelName then q
  else
    if truthy ambient && !(truthy q.tenantIdCond) then
      { q with tenantIdCond := ambient }
    else q

/-- A mongoose document as the save/validate hooks see it: the tenantId
field (none when unset) and the remaining fields, which the hooks never
touch. -/
structure Doc where
  tenantId : Option String
  otherFields : List (String × String)
deriving DecidableEq, Repr

/-- The pre save hook (src/lib/mongoose-plugin.ts lines 134-162): skip
exempt models; otherwise set tenantId from the ambient context when the
ambient value is truthy and the tenantId field of the document is falsy. -/
def preSaveHook (exempt : List String) (ambient : Option String)
    (modelName : String) (d : Doc) : Doc :=
  if exempt.contains modelName then d
  else
    if truthy ambient && !(truthy d.tenantId) then
      { d with tenantId := ambient }
    else d

/-- The pre validate hook (src/lib/mongoose-plugin.ts lines 166-188): the
same exemption check and the same conditional tenantId assignment as the
save hook, run before validators so the required check can pass. -/
def preValidateHook (exempt : List String) (ambient : Option String)
    (modelName : String) (d : Doc) : Doc :=
  if exempt.contains modelName then d
  else
    if truthy ambient && !(truthy d.tenantId) then
      { d with tenantId := ambient }
    else d

/-- Whether the required-field validation of tenantId fails during save of
a document of model `modelName`, for a schema whose tenantId field was
added by the plugin: mongoose runs the pre validate hook first, then the
required validator, which for a String path fails unless the value is a
non-empty string. -/
def saveRequiredValidationFails (exempt : List String) (ambient : Option String)
    (modelName : String) (d : Doc) : Bool :=
  let d1 := preValidateHook exempt ambient modelName d
  tenantIdRequired exempt modelName && !(truthy d1.tenantId)

/-- Whether a document satisfies the tenantId condition of a filter:
no condition matches every document; an equality condition matches the
documents whose tenantId field holds exactly that value. -/
def matchesTenantCond (cond : Option String) (d : Doc) : Bool :=
  match cond with
  | none => true
  | some t => d.tenantId == some t

/-- Whether a document satisfies the whole filter of a query: the tenantId
condition and every remaining key/value condition. -/
def matchesQuery (q : Query) (d : Doc) : Bool :=
  matchesTenantCond q.tenantIdCond d &&
    q.otherConds.all (fun c => d.otherFields.contains c)

/-- Projection step of a find: when the query excludes tenantId, the
returned document lacks the field. -/
def projectDoc (q : Query) (d : Doc) : Doc :=
  if q.excludeTenantId then { d with tenantId := none } else d

/-- Execution of a find-style query against the collection: the documents
matching the filter, each through the projection. -/
def execFind (db : List Doc) (q : Query) : List Doc :=
  (db.filter (fun d => matchesQuery q d)).map (projectDoc q)

/-- Execution of a count-style query against the collection: the number of
documents matching the filter. -/
def execCount (db : List Doc) (q : Query) : Nat :=
  (db.filter (fun d => matchesQuery q d)).length

/-- A pre-built mongoose model as the store constructor sees it: its name
and the path names of its schema. -/
structure ModelDef where
  modelName : String
  schemaPaths : List String
deriving DecidableEq, Repr

/-- Configuration options of MongooseStore
(interface MongooseStoreOptions, src/lib/index.ts store part lines 33-53).
`connection` records whether a connection was supplied; the optional
custom schema is kept as its path names. -/
structure MongooseStoreOptions where
  modelName : Option String
  connection : Bool
  schemaPaths : Option (List String)
  model : Option ModelDef
deriving DecidableEq, Repr

/-- The two ways the MongooseStore constructor throws. -/
inductive StoreError
  | configError
  | validationError
deriving DecidableEq, Repr

/-- The model name the constructor resolves when no pre-built model is
supplied: the `modelName` option, defaulting to "Tenant". -/
def resolvedModelName (opts : MongooseStoreOptions) : String :=
  match opts.modelName with
  | some n => n
  | none => "Tenant"

/-- The MongooseStore constructor (src/lib/index.ts store part lines
86-115): throw a configuration error when no connection is supplied; with
a pre-built model, throw a validation error when its schema paths lack
"id" or "name"; otherwise create the model from the (default or custom)
schema under the resolved name. On success, add the model name to the
exemption set and return it with the new set. -/
def mongooseStoreInit (opts : MongooseStoreOptions) (exempt : List String) :
    Except StoreError (String × List String) :=
  if !opts.connection then Except.error StoreError.configError
  else
    match opts.model with
    | some m =>
      if !(m.schemaPaths.contains "id") || !(m.schemaPaths.contains "name") then
        Except.error StoreError.validationError
      else
        Except.ok (m.modelName, addExempt exempt m.modelName)
    | none =>
      Except.ok (resolvedModelName opts, addExempt exempt (resolvedModelName opts))

/-- A tenant record: id, name and custom fields. -/
structure TenantRec where
  id : String
  name : String
  extra : List (String × String)
deriving DecidableEq, Repr

/-- getAll (src/lib/index.ts store part lines 117-119): every record of
the tenant collection as plain data. -/
def getAll (db : List TenantRec) : List TenantRec := db

/-- add (src/lib/index.ts store part lines 121-124): persist the record
and return the input unchanged. -/
def addTenant (db : List TenantRec) (t : TenantRec) : List TenantRec × TenantRec :=
  (db ++ [t], t)

/-- getById (src/lib/index.ts store part lines 126-128): findOne on the id
field, none when no record matches. -/
def getById (db : List TenantRec) (i : String) : Option TenantRec :=
  db.find? (fun r => r.id == i)

/-- getByName (src/lib/index.ts store part lines 130-132): findOne on the
name field, none when no record matches. -/
def getByName (db : List TenantRec) (n : String) : Option TenantRec :=
  db.find? (fun r => r.name == n)

/-- Helper: whether a document matches a query depends only on the filter
conditions of the query, not on its projection. -/
theorem matchesQuery_eq_of_conds (q1 q2 : Query)
    (h1 : q1.tenantIdCond = q2.tenantIdCond) (h2 : q1.otherConds = q2.otherConds)
    (d : Doc) : matchesQuery q1 d = matchesQuery q2 d := by
  simp [matchesQuery, h1, h2]

/-- C1 (amended): on a non-exempt model, when the ambient tenant identifier
is truthy and the filter's tenantId key is falsy (absent or the empty
string), the find hook sets the tenantId condition to the ambient
identifier; and an explicit non-empty tenantId constraint in the filter is
never overridden, even when it differs from the ambient identifier. -/
theorem C1_tenantFilterPrecedence (opts : MultitenancyPluginOptions)
    (exempt : List String) (ambient : Option String) (m : String) (q : Query)
    (hm : m ∉ exempt) :
    (truthy ambient = true → truthy q.tenantIdCond = false →
      (preFindHook opts exempt ambient m q).tenantIdCond = ambient)
    ∧ (∀ v, q.tenantIdCond = some v → v ≠ "" →
      (preFindHook opts exempt ambient m q).tenantIdCond = some v) := by
  constructor
  · intro h1 h2
    simp [preFindHook, hm, h1, h2]
    split <;> rfl
  · intro v hv hne
    have ht : truthy q.tenantIdCond = true := by
      rw [hv]; simp [truthy, bne_iff_ne]; exact hne
    simp [preFindHook, hm, ht]
    split <;> exact hv

/-- Witness for C1_tenantFilterPrecedence at a concrete input: an explicit
constraint tenantId = "t2" survives an ambient tenant "t1". -/
theorem C1_tenantFilterPrecedence_witness :
    (preFindHook ⟨none, false, false⟩ [] (some "t1") "Product"
      { tenantIdCond := some "t2", otherConds := [], excludeTenantId := false }).tenantIdCond
      = some "t2" :=
  (C1_tenantFilterPrecedence ⟨none, false, false⟩ [] (some "t1") "Product"
    { tenantIdCond := some "t2", otherConds := [], excludeTenantId := false }
    (by decide)).2 "t2" rfl (by decide)

/-- Counterexample to C1 as stated: the filter explicitly constrains
tenantId to the empty string, the ambient tenant is "t1", and the hook
overrides the explicit constraint, because the guard in the source is the
truthiness check `!this.getQuery().tenantId` and the empty string is
falsy. -/
theorem C1_counterexample :
    ¬ ((preFindHook ⟨none, false, false⟩ [] (some "t1") "Product"
      { tenantIdCond := some "", otherConds := [], excludeTenantId := false }).tenantIdCond
      = some "") := by decide

/-- C2: on a non-exempt model with no ambient tenant identifier, the find
and count hooks leave the filter conditions unchanged, and the executed
query matches exactly the documents the original filter matches, across
all tenants. -/
theorem C2_noAmbientUnfiltered (opts : MultitenancyPluginOptions)
    (exempt : List String) (m : String) (q : Query) (db : List Doc)
    (hm : m ∉ exempt) :
    ((preFindHook opts exempt none m q).tenantIdCond = q.tenantIdCond)
    ∧ ((preFindHook opts exempt none m q).otherConds = q.otherConds)
    ∧ (preCountHook exempt none m q = q)
    ∧ (db.filter (fun d => matchesQuery (preFindHook opts exempt none m q) d)
        = db.filter (fun d => matchesQuery q d))
    ∧ (execCount db (preCountHook exempt none m q) = execCount db q) := by
  have hf1 : (preFindHook opts exempt none m q).tenantIdCond = q.tenantIdCond := by
    simp [preFindHook, hm, truthy]
    split <;> rfl
  have hf2 : (preFindHook opts exempt none m q).otherConds = q.otherConds := by
    simp [preFindHook, hm, truthy]
    split <;> rfl
  have hc : preCountHook exempt none m q = q := by
    simp [preCountHook, hm, truthy]
  refine ⟨hf1, hf2, hc, ?_, by rw [hc]⟩
  have hfun : (fun d => matchesQuery (preFindHook opts exempt none m q) d)
      = fun d => matchesQuery q d :=
    funext (fun d => matchesQuery_eq_of_conds _ _ hf1 hf2 d)
  rw [hfun]

/-- Witness for C2_noAmbientUnfiltered at a concrete input. -/
theorem C2_noAmbientUnfiltered_witness :
    ((preFindHook ⟨none, false, false⟩ ["Tenant"] none "Product"
      { tenantIdCond := none, otherConds := [], excludeTenantId := false }).tenantIdCond = none)
    ∧ ((preFindHook ⟨none, false, false⟩ ["Tenant"] none "Product"
      { tenantIdCond := none, otherConds := [], excludeTenantId := false }).otherConds = [])
    ∧ (preCountHook ["Tenant"] none "Product"
      { tenantIdCond := none, otherConds := [], excludeTenantId := false }
      = { tenantIdCond := none, otherConds := [], excludeTenantId := false })
    ∧ ([{ tenantId := some "t1", otherFields := [] },
        { tenantId := some "t2", otherFields := [] }].filter
        (fun d => matchesQuery (preFindHook ⟨none, false, false⟩ ["Tenant"] none "Product"
          { tenantIdCond := none, otherConds := [], excludeTenantId := false }) d)
        = [{ tenantId := some "t1", otherFields := [] },
           { tenantId := some "t2", otherFields := [] }].filter
        (fun d => matchesQuery { tenantIdCond := none, otherConds := [], excludeTenantId := false } d))
    ∧ (execCount [{ tenantId := some "t1", otherFields := [] },
        { tenantId := some "t2", otherFields := [] }]
        (preCountHook ["Tenant"] none "Product"
          { tenantIdCond := none, otherConds := [], excludeTenantId := false })
        = execCount [{ tenantId := some "t1", otherFields := [] },
            { tenantId := some "t2", otherFields := [] }]
          { tenantIdCond := none, otherConds := [], excludeTenantId := false }) :=
  C2_noAmbientUnfiltered ⟨none, false, false⟩ ["Tenant"] "Product"
    { tenantIdCond := none, otherConds := [], excludeTenantId := false }
    [{ tenantId := some "t1", otherFields := [] },
     { tenantId := some "t2", otherFields := [] }] (by decide)

/-- C3: on an exempt model, each of the four hooks is the identity, for
every ambient tenant, option set, query and document: no filter is added,
no projection is changed, and no document acquires a tenantId. -/
theorem C3_exemptIdentity (opts : MultitenancyPluginOptions)
    (exempt : List String) (ambient : Option String) (m : String)
    (q : Query) (d : Doc) (hm : m ∈ exempt) :
    preFindHook opts exempt ambient m q = q
    ∧ preCountHook exempt ambient m q = q
    ∧ preSaveHook exempt ambient m d = d
    ∧ preValidateHook exempt ambient m d = d := by
  simp [preFindHook, preCountHook, preSaveHook, preValidateHook, hm]

/-- Witness for C3_exemptIdentity at a concrete input: the Tenant model is
exempt and all four hooks leave query and document unchanged. -/
theorem C3_exemptIdentity_witness :
    preFindHook ⟨none, true, false⟩ ["Tenant"] (some "t1") "Tenant"
      { tenantIdCond := none, otherConds := [], excludeTenantId := false }
      = { tenantIdCond := none, otherConds := [], excludeTenantId := false }
    ∧ preCountHook ["Tenant"] (some "t1") "Tenant"
      { tenantIdCond := none, otherConds := [], excludeTenantId := false }
      = { tenantIdCond := none, otherConds := [], excludeTenantId := false }
    ∧ preSaveHook ["Tenant"] (some "t1") "Tenant" { tenantId := none, otherFields := [] }
      = { tenantId := none, otherFields := [] }
    ∧ preValidateHook ["Tenant"] (some "t1") "Tenant" { tenantId := none, otherFields := [] }
      = { tenantId := none, otherFields := [] } :=
  C3_exemptIdentity ⟨none, true, false⟩ ["Tenant"] (some "t1") "Tenant"
    { tenantIdCond := none, otherConds := [], excludeTenantId := false }
    { tenantId := none, otherFields := [] } (by decide)

/-- C4 (amended): a document whose tenantId holds a non-empty value is
never changed by the save or validate hook; a tenantId holding the empty
string is treated as unset by the truthiness guard and can be overwritten. -/
theorem C4_setTenantIdPreserved (exempt : List String) (ambient : Option String)
    (m : String) (d : Doc) (v : String) (hv : d.tenantId = some v) (hne : v ≠ "") :
    preSaveHook exempt ambient m d = d ∧ preValidateHook exempt ambient m d = d := by
  have ht : truthy d.tenantId = true := by
    rw [hv]; simp [truthy, bne_iff_ne]; exact hne
  constructor
  · simp [preSaveHook, ht]
  · simp [preValidateHook, ht]

/-- Witness for C4_setTenantIdPreserved at a concrete input: a document
already tagged "t2" is unchanged under ambient tenant "t1". -/
theorem C4_setTenantIdPreserved_witness :
    preSaveHook [] (some "t1") "Product" { tenantId := some "t2", otherFields := [] }
      = { tenantId := some "t2", otherFields := [] }
    ∧ preValidateHook [] (some "t1") "Product" { tenantId := some "t2", otherFields := [] }
      = { tenantId := some "t2", otherFields := [] } :=
  C4_setTenantIdPreserved [] (some "t1") "Product"
    { tenantId := some "t2", otherFields := [] } "t2" rfl (by decide)

/-- Counterexample to C4 as stated: a document whose tenantId is set to the
empty string is overwritten by the save hook under ambient tenant "t1",
because the guard in the source is the truthiness check
`!this.get('tenantId')` and the empty string is falsy. -/
theorem C4_counterexample :
    ¬ (preSaveHook [] (some "t1") "Product" { tenantId := some "", otherFields := [] }
      = { tenantId := some "", otherFields := [] }) := by decide

/-- Helper: a name just added by addExempt is a member of the result. -/
theorem mem_addExempt (s : List String) (n : String) : n ∈ addExempt s n := by
  by_cases h : n ∈ s <;> simp [addExempt, h]

/-- Helper: addExempt never removes a member. -/
theorem mem_addExempt_of_mem (s : List String) (n x : String) (hx : x ∈ s) :
    x ∈ addExempt s n := by
  by_cases h : n ∈ s
  · simpa [addExempt, h] using hx
  · simp [addExempt, h]
    exact Or.inl hx

/-- Helper: folding addExempt over a list of names never removes a member. -/
theorem mem_foldl_addExempt (names : List String) (s : List String) (x : String)
    (hx : x ∈ s) : x ∈ names.foldl addExempt s := by
  induction names generalizing s with
  | nil => simpa using hx
  | cons n ns ih =>
    rw [List.foldl_cons]
    exact ih (addExempt s n) (mem_addExempt_of_mem s n x hx)

/-- C5: applying the plugin to a schema with no tenantId path adds the
String field whose required validator is evaluated per instance; that
validator returns true exactly when the model name is not in the exemption
set at validation time; and saving a non-exempt document with no ambient
tenant and no tenantId fails required-field validation even after the pre
validate hook has run. -/
theorem C5_dynamicRequired (opts : MultitenancyPluginOptions)
    (exempt : List String) (s : SchemaModel)
    (hs : s.tenantIdPath = TenantIdPath.absent) :
    ((multitenancyPlugin opts exempt s).2.tenantIdPath = TenantIdPath.pluginAdded)
    ∧ (∀ exemptAtValidation : List String, ∀ m : String,
        tenantIdRequired exemptAtValidation m = true ↔ m ∉ exemptAtValidation)
    ∧ (∀ exemptAtValidation : List String, ∀ m : String, ∀ d : Doc,
        m ∉ exemptAtValidation → d.tenantId = none →
        saveRequiredValidationFails exemptAtValidation none m d = true) := by
  refine ⟨?_, ?_, ?_⟩
  · simp [multitenancyPlugin, hs]
  · intro ex m
    by_cases h : m ∈ ex <;> simp [tenantIdRequired, h]
  · intro ex m d hm hd
    simp [saveRequiredValidationFails, preValidateHook, tenantIdRequired, hm, hd, truthy]

/-- Witness for C5_dynamicRequired at a concrete input: the plugin adds the
field to an empty schema, the validator requires tenantId for the
non-exempt Product model, and saving a Product with no ambient tenant and
no tenantId fails validation. -/
theorem C5_dynamicRequired_witness :
    ((multitenancyPlugin ⟨none, false, false⟩ [] ⟨TenantIdPath.absent⟩).2.tenantIdPath
      = TenantIdPath.pluginAdded)
    ∧ (tenantIdRequired ["Tenant"] "Product" = true ↔ "Product" ∉ (["Tenant"] : List String))
    ∧ saveRequiredValidationFails ["Tenant"] none "Product"
        { tenantId := none, otherFields := [] } = true :=
  ⟨(C5_dynamicRequired ⟨none, false, false⟩ [] ⟨TenantIdPath.absent⟩ rfl).1,
   (C5_dynamicRequired ⟨none, false, false⟩ [] ⟨TenantIdPath.absent⟩ rfl).2.1 ["Tenant"] "Product",
   (C5_dynamicRequired ⟨none, false, false⟩ [] ⟨TenantIdPath.absent⟩ rfl).2.2 ["Tenant"] "Product"
     { tenantId := none, otherFields := [] } (by decide) rfl⟩

/-- C6: for every option set, exemption set, ambient tenant, model name and
query, the count hook produces exactly the filter conditions the find hook
produces, changes no projection, and the count result equals the number of
find results of the same query against the same collection. -/
theorem C6_countMatchesFind (opts : MultitenancyPluginOptions)
    (exempt : List String) (ambient : Option String) (m : String) (q : Query)
    (db : List Doc) :
    ((preCountHook exempt ambient m q).tenantIdCond
      = (preFindHook opts exempt ambient m q).tenantIdCond)
    ∧ ((preCountHook exempt ambient m q).otherConds
      = (preFindHook opts exempt ambient m q).otherConds)
    ∧ ((preCountHook exempt ambient m q).excludeTenantId = q.excludeTenantId)
    ∧ (execCount db (preCountHook exempt ambient m q)
      = (execFind db (preFindHook opts exempt ambient m q)).length) := by
  have h1 : (preCountHook exempt ambient m q).tenantIdCond
      = (preFindHook opts exempt ambient m q).tenantIdCond := by
    by_cases hc : m ∈ exempt
    · simp [preCountHook, preFindHook, hc]
    · simp [preCountHook, preFindHook, hc]
      split <;> split <;> rfl
  have h2 : (preCountHook exempt ambient m q).otherConds
      = (preFindHook opts exempt ambient m q).otherConds := by
    by_cases hc : m ∈ exempt
    · simp [preCountHook, preFindHook, hc]
    · simp [preCountHook, preFindHook, hc]
      split <;> split <;> rfl
  have h3 : (preCountHook exempt ambient m q).excludeTenantId = q.excludeTenantId := by
    by_cases hc : m ∈ exempt
    · simp [preCountHook, hc]
    · simp [preCountHook, hc]
      split <;> rfl
  refine ⟨h1, h2, h3, ?_⟩
  have hfun : (fun d => matchesQuery (preCountHook exempt ambient m q) d)
      = fun d => matchesQuery (preFindHook opts exempt ambient m q) d :=
    funext (fun d => matchesQuery_eq_of_conds _ _ h1 h2 d)
  simp [execCount, execFind, hfun]

/-- C7: the store constructor fails with a configuration error exactly when
no connection is supplied; with a connection and a pre-built model it fails
with a validation error when the model schema lacks an id or a name path
and otherwise succeeds; with a connection and no model it succeeds under
the resolved name (the modelName option, defaulting to Tenant); and every
successful construction adds the resolved model name to the exemption
set. -/
theorem C7_storeConstructor (opts : MongooseStoreOptions) (exempt : List String) :
    (opts.connection = false →
      mongooseStoreInit opts exempt = Except.error StoreError.configError)
    ∧ (opts.connection = true → ∀ mo : ModelDef, opts.model = some mo →
        (¬ ("id" ∈ mo.schemaPaths ∧ "name" ∈ mo.schemaPaths) →
          mongooseStoreInit opts exempt = Except.error StoreError.validationError)
        ∧ ("id" ∈ mo.schemaPaths → "name" ∈ mo.schemaPaths →
          mongooseStoreInit opts exempt
            = Except.ok (mo.modelName, addExempt exempt mo.modelName)
          ∧ mo.modelName ∈ addExempt exempt mo.modelName))
    ∧ (opts.connection = true → opts.model = none →
        mongooseStoreInit opts exempt
          = Except.ok (resolvedModelName opts, addExempt exempt (resolvedModelName opts))
        ∧ resolvedModelName opts ∈ addExempt exempt (resolvedModelName opts)) := by
  refine ⟨?_, ?_, ?_⟩
  · intro hc
    simp [mongooseStoreInit, hc]
  · intro hc mo hmo
    constructor
    · intro hb
      by_cases hid : "id" ∈ mo.schemaPaths
      · by_cases hname : "name" ∈ mo.schemaPaths
        · exact absurd ⟨hid, hname⟩ hb
        · simp [mongooseStoreInit, hc, hmo, hid, hname]
      · simp [mongooseStoreInit, hc, hmo, hid]
    · intro hid hname
      refine ⟨?_, mem_addExempt exempt mo.modelName⟩
      simp [mongooseStoreInit, hc, hmo, hid, hname]
  · intro hc hmo
    refine ⟨?_, mem_addExempt exempt (resolvedModelName opts)⟩
    simp [mongooseStoreInit, hc, hmo]

/-- Witness for C7_storeConstructor at concrete inputs: no connection gives
a configuration error; a custom model lacking an id path gives a validation
error; default construction succeeds and exempts the name Tenant. -/
theorem C7_storeConstructor_witness :
    mongooseStoreInit { modelName := none, connection := false, schemaPaths := none, model := none } []
      = Except.error StoreError.configError
    ∧ mongooseStoreInit
        { modelName := none, connection := true, schemaPaths := none,
          model := some { modelName := "Custom", schemaPaths := ["name"] } } []
      = Except.error StoreError.validationError
    ∧ (mongooseStoreInit { modelName := none, connection := true, schemaPaths := none, model := none } []
        = Except.ok ("Tenant", addExempt [] "Tenant")
      ∧ "Tenant" ∈ addExempt [] "Tenant") :=
  ⟨(C7_storeConstructor
      { modelName := none, connection := false, schemaPaths := none, model := none } []).1 rfl,
   ((C7_storeConstructor
      { modelName := none, connection := true, schemaPaths := none,
          model := some { modelName := "Custom", schemaPaths := ["name"] } } []).2.1 rfl
      { modelName := "Custom", schemaPaths := ["name"] } rfl).1 (by decide),
   (C7_storeConstructor
      { modelName := none, connection := true, schemaPaths := none, model := none } []).2.2 rfl rfl⟩

/-- C8: when no record of the collection matches the requested id
(respectively name), getById (respectively getByName) returns none; a
not-found single-record lookup is a value, never an error. -/
theorem C8_notFoundIsNull (db : List TenantRec) (i n : String)
    (hi : ∀ r ∈ db, r.id ≠ i) (hn : ∀ r ∈ db, r.name ≠ n) :
    getById db i = none ∧ getByName db n = none := by
  constructor
  · rw [getById, List.find?_eq_none]
    intro r hr
    simpa using hi r hr
  · rw [getByName, List.find?_eq_none]
    intro r hr
    simpa using hn r hr

/-- Witness for C8_notFoundIsNull at a concrete input: one stored tenant
and lookups of an absent id and an absent name. -/
theorem C8_notFoundIsNull_witness :
    getById [{ id := "t1", name := "Acme", extra := [] }] "missing" = none
    ∧ getByName [{ id := "t1", name := "Acme", extra := [] }] "Globex" = none :=
  C8_notFoundIsNull [{ id := "t1", name := "Acme", extra := [] }] "missing" "Globex"
    (by decide) (by decide)

/-- C9: with hideTenantId enabled the find hook excludes tenantId from the
projection on every non-exempt model regardless of the ambient tenant; on
an exempt model the find hook leaves the projection unchanged; and the
count hook never changes the projection. -/
theorem C9_hideTenantIdProjection (opts : MultitenancyPluginOptions)
    (exempt : List String) (ambient : Option String) (m : String) (q : Query) :
    (opts.hideTenantId = true → m ∉ exempt →
      (preFindHook opts exempt ambient m q).excludeTenantId = true)
    ∧ (m ∈ exempt →
      (preFindHook opts exempt ambient m q).excludeTenantId = q.excludeTenantId)
    ∧ ((preCountHook exempt ambient m q).excludeTenantId = q.excludeTenantId) := by
  refine ⟨?_, ?_, ?_⟩
  · intro hh hm
    simp [preFindHook, hm, hh]
  · intro hm
    simp [preFindHook, hm]
  · by_cases hc : m ∈ exempt
    · simp [preCountHook, hc]
    · simp [preCountHook, hc]
      split <;> rfl

/-- Witness for C9_hideTenantIdProjection at a concrete input: with no
ambient tenant at all, the find hook still hides tenantId on the
non-exempt Product model, and the Tenant model and count queries are
untouched. -/
theorem C9_hideTenantIdProjection_witness :
    ((preFindHook ⟨none, true, false⟩ ["Tenant"] none "Product"
      { tenantIdCond := none, otherConds := [], excludeTenantId := false }).excludeTenantId = true)
    ∧ ((preFindHook ⟨none, true, false⟩ ["Tenant"] none "Tenant"
      { tenantIdCond := none, otherConds := [], excludeTenantId := false }).excludeTenantId = false)
    ∧ ((preCountHook ["Tenant"] none "Product"
      { tenantIdCond := none, otherConds := [], excludeTenantId := false }).excludeTenantId = false) :=
  ⟨(C9_hideTenantIdProjection ⟨none, true, false⟩ ["Tenant"] none "Product"
      { tenantIdCond := none, otherConds := [], excludeTenantId := false }).1 rfl (by decide),
   (C9_hideTenantIdProjection ⟨none, true, false⟩ ["Tenant"] none "Tenant"
      { tenantIdCond := none, otherConds := [], excludeTenantId := false }).2.1 (by decide),
   (C9_hideTenantIdProjection ⟨none, true, false⟩ ["Tenant"] none "Product"
      { tenantIdCond := none, otherConds := [], excludeTenantId := false }).2.2⟩

/-- C10: the exemption set grows monotonically under the core operations:
every member of the set before a plugin application is a member after it,
and every member of the set before a store construction that returns
successfully is a member of the returned set. -/
theorem C10_exemptMonotone (opts : MultitenancyPluginOptions)
    (sopts : MongooseStoreOptions) (exempt : List String) (schema : SchemaModel) :
    (∀ x ∈ exempt, x ∈ (multitenancyPlugin opts exempt schema).1)
    ∧ (∀ nm ex1, mongooseStoreInit sopts exempt = Except.ok (nm, ex1) →
        ∀ x ∈ exempt, x ∈ ex1) := by
  constructor
  · intro x hx
    cases hopt : opts.exemptModelsOpt with
    | none => simpa [multitenancyPlugin, hopt] using hx
    | some names =>
      simp [multitenancyPlugin, hopt]
      exact mem_foldl_addExempt names exempt x hx
  · intro nm ex1 hok x hx
    by_cases hc : sopts.connection = true
    · cases hmo : sopts.model with
      | some mo =>
        by_cases hid : "id" ∈ mo.schemaPaths
        · by_cases hname : "name" ∈ mo.schemaPaths
          · simp [mongooseStoreInit, hc, hmo, hid, hname] at hok
            rw [← hok.2]
            exact mem_addExempt_of_mem exempt mo.modelName x hx
          · simp [mongooseStoreInit, hc, hmo, hid, hname] at hok
        · simp [mongooseStoreInit, hc, hmo, hid] at hok
      | none =>
        simp [mongooseStoreInit, hc, hmo] at hok
        rw [← hok.2]
        exact mem_addExempt_of_mem exempt (resolvedModelName sopts) x hx
    · have hc2 : sopts.connection = false := by simpa using hc
      simp [mongooseStoreInit, hc2] at hok

/-- Witness for C10_exemptMonotone at concrete inputs: the name Tenant
stays exempt through a plugin application that exempts Log and through a
store construction under the model name Org. -/
theorem C10_exemptMonotone_witness :
    "Tenant" ∈ (multitenancyPlugin ⟨some ["Log"], false, false⟩ ["Tenant"] ⟨TenantIdPath.absent⟩).1
    ∧ "Tenant" ∈ addExempt ["Tenant"] "Org" :=
  ⟨(C10_exemptMonotone ⟨some ["Log"], false, false⟩
      { modelName := some "Org", connection := true, schemaPaths := none, model := none }
      ["Tenant"] ⟨TenantIdPath.absent⟩).1 "Tenant" (by decide),
   (C10_exemptMonotone ⟨some ["Log"], false, false⟩
      { modelName := some "Org", connection := true, schemaPaths := none, model := none }
      ["Tenant"] ⟨TenantIdPath.absent⟩).2 "Org" (addExempt ["Tenant"] "Org") rfl
      "Tenant" (by decide)⟩

